import Mathlib

/-!
Shallow embedding of the vampytest test framework core: the condition
(assertion) state machine, the `OutputWriter` buffering logic, the subtype /
identity assertions, and the default event formatter's reporting behaviour.

Each definition is translated from the corresponding Python source file.
Components of the repository that are not part of the provided sources are
modelled from the specification and marked `Modelled from the spec:` in their
doc comments.
-/

namespace Vampytest

/-- Condition states, from `vampytest/assertions/assertion_states.py`
(module referenced by `assertion_base.py`; the spec describes it as the
enumeration `{NONE, SUCCEEDED, FAILED}`). -/
inductive ConditionState
  | NONE
  | SUCCEEDED
  | FAILED
deriving DecidableEq

/-- Base class for conditions, from `vampytest/assertions/assertion_base.py`:
a condition owns a `state` field. -/
structure AssertionBase where
  state : ConditionState
deriving DecidableEq

/-- `AssertionBase.__new__` from `assertion_base.py`: a fresh condition has
state `NONE`. -/
def AssertionBase.new : AssertionBase :=
  ⟨ConditionState.NONE⟩

/-- Modelled from the spec: the evaluation step of a condition
(`assertion_conditional_base.py` is not among the provided sources). Per §4.1,
`evaluate()` invokes the predicate once and transitions `state` from `NONE` to
`SUCCEEDED` or `FAILED`; no other operation changes a condition's state. -/
inductive ConditionStep : AssertionBase → AssertionBase → Prop
  | succeed : ConditionStep ⟨ConditionState.NONE⟩ ⟨ConditionState.SUCCEEDED⟩
  | fail : ConditionStep ⟨ConditionState.NONE⟩ ⟨ConditionState.FAILED⟩

/-- Python errors relevant to the assertion model. -/
inductive PyError
  | typeError
deriving DecidableEq

/-! ## OutputWriter, from `vampytest/core/output_writer.py`

The underlying file is modelled as the ordered list of string chunks passed to
`file.write`. Python's `string.startswith('\n')` / `string.endswith('\n')` /
truthiness tests are embedded over the string's character list. -/

/-- `BREAK_LINE = '=' * 80` from `output_writer.py`. -/
def BREAK_LINE : String :=
  String.mk (List.replicate 80 '=')

/-- Python `string.startswith('\n')`: the first character is a line break. -/
def startsWithLinebreak (s : String) : Bool :=
  s.data.head? == some '\n'

/-- Python `string.endswith('\n')`: the last character is a line break. -/
def endsWithLinebreak (s : String) : Bool :=
  s.data.getLast? == some '\n'

/-- `OutputWriter` state from `output_writer.py`: the two buffering flags and
the chunks written to the underlying file so far. -/
structure OutputWriter where
  last_chunk_break_line : Bool
  last_write_ended_with_linebreak : Bool
  file : List String
deriving DecidableEq

/-- `OutputWriter.__new__`: both flags start `False`; the file has received no
chunk yet. -/
def OutputWriter.new : OutputWriter :=
  ⟨false, false, []⟩

/-- `OutputWriter.write_break_line` from `output_writer.py` lines 43-62:
if the last chunk was a break line, return `False` without writing; otherwise
write `'\n'` unless the last write ended with a linebreak, write `BREAK_LINE`,
record the new flags and return `True`. -/
def OutputWriter.write_break_line (w : OutputWriter) : OutputWriter × Bool :=
  if w.last_chunk_break_line then
    (w, false)
  else
    let file :=
      if w.last_write_ended_with_linebreak = false then w.file ++ ["\n"] else w.file
    (⟨true, false, file ++ [BREAK_LINE]⟩, true)

/-- `OutputWriter.write` from `output_writer.py` lines 65-84: an empty string
returns `False` untouched; otherwise a `'\n'` is written first when the last
write did not end with a linebreak and the string does not start with one, then
the string itself, and the flags are updated. -/
def OutputWriter.write (w : OutputWriter) (s : String) : OutputWriter × Bool :=
  if s.data.isEmpty then
    (w, false)
  else
    let file :=
      if w.last_write_ended_with_linebreak = false ∧ startsWithLinebreak s = false then
        w.file ++ ["\n"]
      else
        w.file
    (⟨false, endsWithLinebreak s, file ++ [s]⟩, true)

/-- Folding `OutputWriter.write` over a sequence of strings, in order. -/
def writeAll (w : OutputWriter) (l : List String) : OutputWriter :=
  match l with
  | [] => w
  | s :: rest => writeAll (w.write s).1 rest

/-- Number of `BREAK_LINE` separator chunks in a file. -/
def breakLineCount (file : List String) : Nat :=
  (file.filter fun s => s == BREAK_LINE).length

theorem breakLineCount_append (l₁ l₂ : List String) :
    breakLineCount (l₁ ++ l₂) = breakLineCount l₁ + breakLineCount l₂ := by
  simp [breakLineCount, List.filter_append]

/-- Auxiliary for the fresh-line behaviour of `write`: folding `write` over
nonempty chunks that neither start nor end with a linebreak, starting from a
writer whose last write did not end with a linebreak, appends exactly one
`"\n"` chunk before each written chunk. -/
theorem writeAll_fresh (l : List String) :
    ∀ w : OutputWriter,
      w.last_write_ended_with_linebreak = false →
      (∀ s ∈ l,
        s.data.isEmpty = false ∧ startsWithLinebreak s = false ∧
          endsWithLinebreak s = false) →
      (writeAll w l).file = w.file ++ l.flatMap fun s => ["\n", s] := by
  induction l with
  | nil => intro w _ _; simp [writeAll]
  | cons s rest ih =>
    intro w hw hl
    obtain ⟨hne, hstart, hend⟩ := hl s (List.mem_cons_self s rest)
    have hrest : ∀ t ∈ rest,
        t.data.isEmpty = false ∧ startsWithLinebreak t = false ∧
          endsWithLinebreak t = false :=
      fun t ht => hl t (List.mem_cons_of_mem s ht)
    have hwrite : (w.write s).1 =
        ⟨false, endsWithLinebreak s, (w.file ++ ["\n"]) ++ [s]⟩ := by
      simp [OutputWriter.write, hne, hw, hstart]
    rw [writeAll, hwrite, ih _ (by simp [hend]) hrest]
    simp

/-! ## Run context and the end-of-run report

From `vampytest/core/event_handling/default.py` (`DefaultEventFormatter`).
Load failures and test results are identified by natural numbers; the writer
helpers `write_load_failure`, `write_result_failing`, `write_result_informal`
and the terminal styling are not among the provided sources and are modelled
from the spec as opaque calls / identity on the text. -/

/-- Testing context accessors used by `testing_end`: the buffers returned by
`get_file_load_failures` / `iter_failed_results` / `iter_informal_results` and
the three counters. -/
structure TestingContext where
  load_failures : List Nat
  failed_results : List Nat
  informal_results : List Nat
  failed_test_count : Nat
  skipped_test_count : Nat
  passed_test_count : Nat
deriving DecidableEq

/-- Terminal colors from `event_handling/colors.py` (not among the provided
sources; only their identity matters here). -/
inductive Color
  | fail
  | pass
  | skip
  | unknown
deriving DecidableEq

/-- Modelled from the spec: `style_text` (`event_handling/text_styling.py` is
not among the provided sources) applies terminal coloring, which §1 places out
of scope; it is modelled as the identity on the text content. -/
def style_text (text : String) (color : Color) : String :=
  text

/-- One call made by the formatter on its output writer. The three rendering
helpers (`write_load_failure`, `write_result_failing`,
`write_result_informal`, not among the provided sources) are modelled from the
spec as opaque calls carrying the rendered item; `write` carries the raw text
the formatter itself writes. -/
inductive WriterCall
  | break_line
  | load_failure (lf : Nat)
  | result_failing (r : Nat)
  | result_informal (r : Nat)
  | write (text : String)
  | end_line
deriving DecidableEq

/-- `failed_message_part` from `testing_end`: `f'{failed_count} failed'`,
styled with the fail color when the count is nonzero. -/
def failed_message_part (ctx : TestingContext) : String :=
  let base := toString ctx.failed_test_count ++ " failed"
  if ctx.failed_test_count ≠ 0 then style_text base Color.fail else base

/-- `skipped_message_part` from `testing_end`. -/
def skipped_message_part (ctx : TestingContext) : String :=
  let base := toString ctx.skipped_test_count ++ " skipped"
  if ctx.skipped_test_count ≠ 0 then style_text base Color.skip else base

/-- `passed_message_part` from `testing_end`. -/
def passed_message_part (ctx : TestingContext) : String :=
  let base := toString ctx.passed_test_count ++ " passed"
  if ctx.passed_test_count ≠ 0 then style_text base Color.pass else base

/-- The summary text written by `testing_end`:
`f'{failed_message_part} | {skipped_message_part} | {passed_message_part}'`. -/
def summary_message (ctx : TestingContext) : String :=
  failed_message_part ctx ++ " | " ++ skipped_message_part ctx ++ " | "
    ++ passed_message_part ctx

/-- The load-failure suffix written by `testing_end` when the run recorded at
least one file load failure:
`f' | {len(load_failures)} files failed to load'`. -/
def load_failure_suffix (ctx : TestingContext) : String :=
  style_text (" | " ++ toString ctx.load_failures.length ++ " files failed to load")
    Color.fail

/-- `DefaultEventFormatter.testing_end` from `default.py` lines 206-251, as
the ordered sequence of calls it makes on the output writer: a break line, one
`write_load_failure` per load failure, one `write_result_failing` per failed
result, one `write_result_informal` per informal result when the failed count
is zero, the summary text, the load-failure suffix when any load failure was
recorded, and a final `end_line`. The context is only read, never modified. -/
def testing_end (ctx : TestingContext) : List WriterCall :=
  WriterCall.break_line ::
    (ctx.load_failures.map WriterCall.load_failure
      ++ ctx.failed_results.map WriterCall.result_failing
      ++ (if ctx.failed_test_count ≠ 0 then []
          else ctx.informal_results.map WriterCall.result_informal)
      ++ [WriterCall.write (summary_message ctx)]
      ++ (if ctx.load_failures.isEmpty then []
          else [WriterCall.write (load_failure_suffix ctx)])
      ++ [WriterCall.end_line])

/-- Whether a writer call is a raw text write made by `testing_end` itself. -/
def WriterCall.isText : WriterCall → Bool
  | WriterCall.write _ => true
  | _ => false

/-- The informal result rendered by a writer call, if it is one. -/
def WriterCall.informalPayload : WriterCall → Option Nat
  | WriterCall.result_informal r => some r
  | _ => none

theorem filter_isText_map (f : Nat → WriterCall)
    (hf : ∀ x, (f x).isText = false) (l : List Nat) :
    (l.map f).filter WriterCall.isText = [] := by
  induction l with
  | nil => rfl
  | cons a t ih => simp [List.filter_cons, hf a, ih]

theorem filterMap_informal_map (f : Nat → WriterCall)
    (hf : ∀ x, (f x).informalPayload = none) (l : List Nat) :
    (l.map f).filterMap WriterCall.informalPayload = [] := by
  induction l with
  | nil => rfl
  | cons a t ih => simp [List.filterMap_cons, hf a, ih]

theorem filterMap_informal_map_informal (l : List Nat) :
    List.filterMap (WriterCall.informalPayload ∘ WriterCall.result_informal) l = l := by
  induction l with
  | nil => rfl
  | cons a t ih =>
    simp [List.filterMap_cons, Function.comp, WriterCall.informalPayload, ih]

/-! ## Subtype assertion

`assertion_subtype.py` is not among the provided sources; only its test module
(`core/assertions/tests/test_assertion_subtype.py`) is. The evaluation is
modelled from the spec (§4.1) over a small universe of Python values. -/

/-- The Python classes involved in the subtype assertion examples. -/
inductive PyType
  | bool
  | int
  | str
  | object
deriving DecidableEq

/-- Modelled from the spec: Python's built-in subclass relation on the
involved classes — every class is a subclass of itself and of `object`, and
`bool` is a subclass of `int`. -/
def issubclass (t u : PyType) : Bool :=
  t == u || u == PyType.object || (t == PyType.bool && u == PyType.int)

/-- A Python operand value: either a type/class value or an ordinary value. -/
inductive PyVal
  | type_val (t : PyType)
  | int_val (n : Int)
  | str_val (s : String)
  | bool_val (b : Bool)
deriving DecidableEq

/-- The subtype condition: state, captured error, checked operand (`value_1`)
and reference operand (`value_2`). -/
structure AssertionSubtype where
  state : ConditionState
  exception : Option PyError
  value_1 : PyVal
  value_2 : PyVal
deriving DecidableEq

/-- A fresh subtype condition over the two operands (state `NONE`, no captured
error, per `AssertionBase.__new__`). -/
def AssertionSubtype.new (checked reference : PyVal) : AssertionSubtype :=
  ⟨ConditionState.NONE, none, checked, reference⟩

/-- Modelled from the spec: `AssertionSubtype`'s `evaluate()`
(`assertion_subtype.py` is not among the provided sources; its tests are).
Per §4.1: if the reference operand is not a type, a usage error propagates
synchronously out of `evaluate()` (the repository test
`test_assert_subtype_incorrect_type` expects a `TypeError`) and nothing is
captured into the condition; otherwise the condition is satisfied iff the
checked operand is a type that is a subtype of the reference, transitioning
the state to `SUCCEEDED` or `FAILED`. -/
def AssertionSubtype.evaluate (a : AssertionSubtype) : Except PyError AssertionSubtype :=
  match a.value_2 with
  | PyVal.type_val rt =>
    let satisfied :=
      match a.value_1 with
      | PyVal.type_val ct => issubclass ct rt
      | _ => false
    Except.ok
      ⟨if satisfied then ConditionState.SUCCEEDED else ConditionState.FAILED,
        none, a.value_1, a.value_2⟩
  | _ => Except.error PyError.typeError

/-- The resulting condition state of an evaluation, when the evaluation did
not raise. -/
def evaluatedState (r : Except PyError AssertionSubtype) : Option ConditionState :=
  match r with
  | Except.ok a => some a.state
  | Except.error _ => none

/-- Whether an evaluation returned a condition (rather than propagating an
error to the caller). -/
def isCaptured (r : Except PyError AssertionSubtype) : Bool :=
  match r with
  | Except.ok _ => true
  | Except.error _ => false

/-! ## Identity assertion

From `vampytest/core/assertions/assertion_identical.py`: `invoke_condition`
returns `self.value_1 is self.value_2`. Python's `is` compares object
identity, embedded here as equality of an object's reference (`ref`), distinct
from equality of its payload (`val`). -/

/-- A Python object: its identity (`ref`, modelling the object's reference)
and its payload value (`val`, what `==` would compare). -/
structure PyObject (α : Type) where
  ref : Nat
  val : α
deriving DecidableEq

/-- The identity condition: state, captured error, and the two operands
(per the attribute list of `AssertionIdentical`). -/
structure AssertionIdentical (α : Type) where
  state : ConditionState
  exception : Option PyError
  value_1 : PyObject α
  value_2 : PyObject α

/-- `AssertionIdentical.invoke_condition` from `assertion_identical.py` lines
25-27: `return self.value_1 is self.value_2`. -/
def AssertionIdentical.invoke_condition {α : Type} (a : AssertionIdentical α) : Bool :=
  a.value_1.ref == a.value_2.ref

/-! ## Rendering of the discovery tree by the default formatter

`DefaultEventFormatter._maybe_render_test_file_into` from `default.py` lines
108-138. `FileSystemEntry` is an external discovery-tree node (not among the
provided sources); modelled from the spec: a node has an identity, ordered
proper ancestors (`iter_parents`, root-first), and a `render_into` hook. A
call of the hook is recorded in a trace by the rendered node's identity. -/

/-- Modelled from the spec: a discovery tree node — its identity and the
identities of its ancestors, root-first (`iter_parents`). -/
structure FileSystemEntry where
  eid : Nat
  parents : List Nat

/-- The formatter state relevant to rendering: the set of already rendered
entries (`rendered_entries`), by identity. -/
structure DefaultEventFormatter where
  rendered_entries : List Nat

/-- `DefaultEventFormatter.__new__`: no entry rendered yet. -/
def DefaultEventFormatter.new : DefaultEventFormatter :=
  ⟨[]⟩

/-- The parent loop of `_maybe_render_test_file_into`: for each parent in
order, skip it when already rendered, otherwise call its `render_into` hook
and add it to the rendered set. Returns the updated rendered set and the
trace of `render_into` calls made. -/
def maybe_render_parents (rendered : List Nat) (parents : List Nat) :
    List Nat × List Nat :=
  match parents with
  | [] => (rendered, [])
  | p :: rest =>
    if p ∈ rendered then
      maybe_render_parents rendered rest
    else
      let rc := maybe_render_parents (p :: rendered) rest
      (rc.1, p :: rc.2)

/-- `DefaultEventFormatter._maybe_render_test_file_into` from `default.py`
lines 108-138: if the entry was already rendered, nothing happens; otherwise
the not-yet-rendered parents are rendered (and recorded) in order, then the
entry itself is rendered and recorded. Returns the updated formatter and the
trace of `render_into` calls made. -/
def DefaultEventFormatter.maybe_render_test_file_into
    (f : DefaultEventFormatter) (entry : FileSystemEntry) :
    DefaultEventFormatter × List Nat :=
  if entry.eid ∈ f.rendered_entries then
    (f, [])
  else
    let rc := maybe_render_parents f.rendered_entries entry.parents
    (⟨entry.eid :: rc.1⟩, rc.2 ++ [entry.eid])

/-- A sequence of `file_load_done` / `test_done` / `file_testing_done` events,
each of which funnels its entry through `_maybe_render_test_file_into` exactly
once; the per-call traces of `render_into` calls are concatenated in order. -/
def runRenders (f : DefaultEventFormatter) (entries : List FileSystemEntry) :
    DefaultEventFormatter × List Nat :=
  match entries with
  | [] => (f, [])
  | e :: rest =>
    let rc := f.maybe_render_test_file_into e
    let rest' := runRenders rc.1 rest
    (rest'.1, rc.2 ++ rest'.2)

end Vampytest

namespace Vampytest

/-- C1: Every condition is created with state `NONE`
(`AssertionBase.__new__`), every transition goes from `NONE` to a terminal
state (`SUCCEEDED` or `FAILED`, never back to `NONE`), and no further
transition is possible from a terminal state — so along any run the state
transitions exactly once and never reverts. -/
theorem condition_state_transitions_once :
    AssertionBase.new.state = ConditionState.NONE
    ∧ (∀ c c' : AssertionBase, ConditionStep c c' →
        c.state = ConditionState.NONE
        ∧ c'.state ≠ ConditionState.NONE
        ∧ (c'.state = ConditionState.SUCCEEDED ∨ c'.state = ConditionState.FAILED))
    ∧ (∀ c₁ c₂ c₃ : AssertionBase,
        ConditionStep c₁ c₂ → ¬ ConditionStep c₂ c₃) := by
  refine ⟨rfl, ?_, ?_⟩
  · intro c c' h
    cases h with
    | succeed => exact ⟨rfl, by simp, Or.inl rfl⟩
    | fail => exact ⟨rfl, by simp, Or.inr rfl⟩
  · intro c₁ c₂ c₃ h₁ h₂
    cases h₁ <;> cases h₂

/-- Witness for `condition_state_transitions_once` at the concrete step
`NONE → SUCCEEDED`. -/
theorem condition_state_transitions_once_witness :
    AssertionBase.new.state = ConditionState.NONE
    ∧ ((⟨ConditionState.NONE⟩ : AssertionBase).state = ConditionState.NONE
        ∧ (⟨ConditionState.SUCCEEDED⟩ : AssertionBase).state ≠ ConditionState.NONE
        ∧ ((⟨ConditionState.SUCCEEDED⟩ : AssertionBase).state = ConditionState.SUCCEEDED
            ∨ (⟨ConditionState.SUCCEEDED⟩ : AssertionBase).state = ConditionState.FAILED))
    ∧ ¬ ConditionStep ⟨ConditionState.SUCCEEDED⟩ ⟨ConditionState.NONE⟩ :=
  ⟨condition_state_transitions_once.1,
    condition_state_transitions_once.2.1 _ _ ConditionStep.succeed,
    condition_state_transitions_once.2.2 _ _ _ ConditionStep.succeed⟩

/-- C7 counterexample: at a reachable writer state whose last chunk is already
a break line (here: a fresh writer after one `write_break_line`), two
consecutive `write_break_line` calls emit zero separators — not exactly one —
and both calls return `False`. -/
theorem write_break_line_pair_counterexample :
    ((OutputWriter.new.write_break_line).1.write_break_line).1.file
        = (OutputWriter.new.write_break_line).1.file
    ∧ ((OutputWriter.new.write_break_line).1.write_break_line).2 = false
    ∧ (((OutputWriter.new.write_break_line).1.write_break_line).1.write_break_line).2
        = false
    ∧ breakLineCount
        ((((OutputWriter.new.write_break_line).1.write_break_line).1.write_break_line).1.file)
        = breakLineCount ((OutputWriter.new.write_break_line).1.file) := by
  refine ⟨rfl, rfl, rfl, rfl⟩

/-- C7 (amended): two consecutive `write_break_line` calls with no intervening
write emit at most one separator — exactly one when the writer's last chunk was
not already a break line, and none when it was — and the second call returns
`False` and changes nothing. -/
theorem write_break_line_second_noop (w : OutputWriter) :
    ((w.write_break_line).1.write_break_line).2 = false
    ∧ ((w.write_break_line).1.write_break_line).1 = (w.write_break_line).1
    ∧ breakLineCount (w.write_break_line).1.file
        = breakLineCount w.file + (if w.last_chunk_break_line then 0 else 1) := by
  obtain ⟨b₁, b₂, file⟩ := w
  cases b₁ <;> cases b₂ <;>
    simp [OutputWriter.write_break_line, breakLineCount_append, breakLineCount] <;>
    decide

/-- C8 counterexample: from a fresh writer, `write("a")` followed by
`write("b")` emits a `"\n"` chunk between the two partial chunks, so the two
consecutive partial writes are placed on different output lines instead of
being joined on the same line. -/
theorem write_not_joined_counterexample :
    ((OutputWriter.new.write "a").1.write "b").1.file = ["\n", "a", "\n", "b"]
    ∧ (String.join ((OutputWriter.new.write "a").1.write "b").1.file).data
        = ['\n', 'a', '\n', 'b'] := by
  refine ⟨by decide, by decide⟩

/-- C8 (amended): for every sequence of nonempty partial `write` calls (chunks
neither starting nor ending with a line break), the writer emits exactly one
leading line break before each chunk — a line break is never emitted twice in a
row at the start of a written chunk — but consecutive partial writes therefore
begin on separate output lines rather than being joined. -/
theorem write_chunks_on_fresh_lines (l : List String)
    (h : ∀ s ∈ l,
      s.data.isEmpty = false ∧ startsWithLinebreak s = false ∧
        endsWithLinebreak s = false) :
    (writeAll OutputWriter.new l).file = l.flatMap fun s => ["\n", s] := by
  have := writeAll_fresh l OutputWriter.new rfl h
  simpa [OutputWriter.new] using this

/-- Witness for `write_chunks_on_fresh_lines` on the chunk sequence
`["a", "b"]`. -/
theorem write_chunks_on_fresh_lines_witness :
    (∀ s ∈ (["a", "b"] : List String),
      s.data.isEmpty = false ∧ startsWithLinebreak s = false ∧
        endsWithLinebreak s = false)
    ∧ (writeAll OutputWriter.new ["a", "b"]).file
        = (["a", "b"] : List String).flatMap fun s => ["\n", s] :=
  ⟨by decide, write_chunks_on_fresh_lines ["a", "b"] (by decide)⟩

/-- C10: writing the empty string is a no-op — it returns `False`, writes no
chunk, and leaves both flags untouched — while writing any nonempty string
returns `True`. -/
theorem write_empty_noop :
    (∀ w : OutputWriter, w.write "" = (w, false))
    ∧ (∀ (w : OutputWriter) (s : String),
        s.data.isEmpty = false → (w.write s).2 = true) := by
  constructor
  · intro w; rfl
  · intro w s hs; simp [OutputWriter.write, hs]

/-- Witness for `write_empty_noop` at a fresh writer and the string `"a"`. -/
theorem write_empty_noop_witness :
    OutputWriter.new.write "" = (OutputWriter.new, false)
    ∧ ("a" : String).data.isEmpty = false
    ∧ (OutputWriter.new.write "a").2 = true :=
  ⟨write_empty_noop.1 OutputWriter.new, by decide,
    write_empty_noop.2 OutputWriter.new "a" (by decide)⟩

/-- C2: for every run context, the raw text writes performed by `testing_end`
are exactly one summary line — written exactly once, however many failures
occurred — followed by the load-failure suffix if and only if at least one
file load failure was recorded; and on a run with 3 passed, 1 failed,
1 skipped the summary text is `"1 failed | 1 skipped | 3 passed"`. -/
theorem testing_end_summary_line :
    (∀ ctx : TestingContext,
      (testing_end ctx).filter WriterCall.isText =
        WriterCall.write (summary_message ctx) ::
          (if ctx.load_failures.isEmpty then []
           else [WriterCall.write (load_failure_suffix ctx)]))
    ∧ summary_message ⟨[], [], [], 1, 1, 3⟩ = "1 failed | 1 skipped | 3 passed" := by
  refine ⟨?_, by decide⟩
  intro ctx
  by_cases hf : ctx.failed_test_count ≠ 0 <;>
    by_cases hl : ctx.load_failures.isEmpty <;>
      simp [testing_end, hf, hl, List.filter_cons, List.filter_append,
        filter_isText_map WriterCall.load_failure (fun _ => rfl),
        filter_isText_map WriterCall.result_failing (fun _ => rfl),
        filter_isText_map WriterCall.result_informal (fun _ => rfl),
        WriterCall.isText]

/-- C3: in the end-of-run report, the informal results rendered by
`testing_end` are exactly the context's informal buffer when the failed-test
count is zero, and none otherwise; the context itself is only read, so the
informal buffer is untouched either way. -/
theorem testing_end_informal_iff_no_failures :
    ∀ ctx : TestingContext,
      (testing_end ctx).filterMap WriterCall.informalPayload =
        if ctx.failed_test_count = 0 then ctx.informal_results else [] := by
  intro ctx
  by_cases hf : ctx.failed_test_count = 0 <;>
    by_cases hl : ctx.load_failures.isEmpty <;>
      simp [testing_end, hf, hl, List.filterMap_cons, List.filterMap_append,
        filterMap_informal_map WriterCall.load_failure (fun _ => rfl),
        filterMap_informal_map WriterCall.result_failing (fun _ => rfl),
        filterMap_informal_map_informal, WriterCall.informalPayload,
        Function.comp, List.filterMap_some]

/-- C4: evaluating `subtype(bool, 1)` — the reference operand is not a type —
propagates a usage error synchronously out of `evaluate()`; no condition with
a `FAILED` state and captured error is produced. -/
theorem subtype_usage_error :
    (AssertionSubtype.new (PyVal.type_val PyType.bool) (PyVal.int_val 1)).evaluate
        = Except.error PyError.typeError
    ∧ isCaptured
        ((AssertionSubtype.new (PyVal.type_val PyType.bool) (PyVal.int_val 1)).evaluate)
        = false :=
  ⟨rfl, rfl⟩

/-- C5: with a type-valued reference operand, `subtype(bool, int)` is
satisfied (`SUCCEEDED`), `subtype(bool, str)` is not (`FAILED`), and
`subtype(1, int)` — checked operand not a type — is an ordinary failed
condition (`FAILED`), not a usage error. -/
theorem subtype_examples :
    evaluatedState
        ((AssertionSubtype.new (PyVal.type_val PyType.bool)
          (PyVal.type_val PyType.int)).evaluate)
        = some ConditionState.SUCCEEDED
    ∧ evaluatedState
        ((AssertionSubtype.new (PyVal.type_val PyType.bool)
          (PyVal.type_val PyType.str)).evaluate)
        = some ConditionState.FAILED
    ∧ evaluatedState
        ((AssertionSubtype.new (PyVal.int_val 1)
          (PyVal.type_val PyType.int)).evaluate)
        = some ConditionState.FAILED :=
  ⟨rfl, rfl, rfl⟩

/-- C6: the identity condition is satisfied iff its two operands are the same
object (same reference); any pair of objects with equal payloads but distinct
references does not satisfy it. -/
theorem invoke_condition_identity :
    (∀ (α : Type) (a : AssertionIdentical α),
        a.invoke_condition = true ↔ a.value_1.ref = a.value_2.ref)
    ∧ (∀ (α : Type) (a : AssertionIdentical α),
        a.value_1.val = a.value_2.val → a.value_1.ref ≠ a.value_2.ref →
          a.invoke_condition = false) := by
  constructor
  · intro α a
    simp [AssertionIdentical.invoke_condition]
  · intro α a _ hne
    simp [AssertionIdentical.invoke_condition, hne]

/-- Witness for `invoke_condition_identity`: two objects holding the payload
`7` at distinct references `0` and `1` are equal but not identical, and the
condition is not satisfied. -/
theorem invoke_condition_identity_witness :
    ((7 : Nat) = 7)
    ∧ ((0 : Nat) ≠ 1)
    ∧ (AssertionIdentical.mk ConditionState.NONE none ⟨0, (7 : Nat)⟩
        ⟨1, 7⟩).invoke_condition = false :=
  ⟨rfl, by decide, invoke_condition_identity.2 Nat _ rfl (by decide)⟩

/-- The parent loop of `_maybe_render_test_file_into` renders each parent at
most once, renders only parents that were not already in the rendered set, and
leaves the rendered set holding exactly the old entries plus the freshly
rendered ones. -/
theorem maybe_render_parents_spec (ps : List Nat) :
    ∀ rendered : List Nat,
      (∀ i, i ∈ (maybe_render_parents rendered ps).1 ↔
          i ∈ rendered ∨ i ∈ (maybe_render_parents rendered ps).2)
      ∧ (maybe_render_parents rendered ps).2.Nodup
      ∧ (∀ i ∈ (maybe_render_parents rendered ps).2, i ∉ rendered ∧ i ∈ ps) := by
  induction ps with
  | nil =>
    intro rendered
    simp [maybe_render_parents]
  | cons p rest ih =>
    intro rendered
    by_cases hp : p ∈ rendered
    · obtain ⟨hmem, hnd, hcalls⟩ := ih rendered
      refine ⟨?_, ?_, ?_⟩
      · intro i
        simp only [maybe_render_parents, if_pos hp]
        exact hmem i
      · simpa [maybe_render_parents, if_pos hp] using hnd
      · intro i hi
        simp only [maybe_render_parents, if_pos hp] at hi
        exact ⟨(hcalls i hi).1, List.mem_cons_of_mem p (hcalls i hi).2⟩
    · obtain ⟨hmem, hnd, hcalls⟩ := ih (p :: rendered)
      refine ⟨?_, ?_, ?_⟩
      · intro i
        simp only [maybe_render_parents, if_neg hp]
        rw [hmem i]
        simp only [List.mem_cons]
        tauto
      · simp only [maybe_render_parents, if_neg hp, List.nodup_cons]
        constructor
        · intro hc
          exact (hcalls p hc).1 (List.mem_cons_self p rendered)
        · exact hnd
      · intro i hi
        simp only [maybe_render_parents, if_neg hp, List.mem_cons] at hi
        rcases hi with rfl | hi
        · exact ⟨hp, List.mem_cons_self i rest⟩
        · obtain ⟨hnr, hmemp⟩ := hcalls i hi
          simp only [List.mem_cons] at hnr
          push_neg at hnr
          exact ⟨hnr.2, List.mem_cons_of_mem p hmemp⟩

/-- `_maybe_render_test_file_into` renders each entry at most once within one
call, renders no entry already in the rendered set, and leaves the rendered
set holding exactly the old entries plus the freshly rendered ones — provided
the entry is not among its own ancestors. -/
theorem maybe_render_test_file_into_spec (f : DefaultEventFormatter)
    (e : FileSystemEntry) (he : e.eid ∉ e.parents) :
    (∀ i, i ∈ (f.maybe_render_test_file_into e).1.rendered_entries ↔
        i ∈ f.rendered_entries ∨ i ∈ (f.maybe_render_test_file_into e).2)
    ∧ (f.maybe_render_test_file_into e).2.Nodup
    ∧ (∀ i ∈ (f.maybe_render_test_file_into e).2, i ∉ f.rendered_entries) := by
  by_cases hin : e.eid ∈ f.rendered_entries
  · refine ⟨?_, ?_, ?_⟩ <;>
      simp [DefaultEventFormatter.maybe_render_test_file_into, if_pos hin]
  · obtain ⟨hmem, hnd, hcalls⟩ :=
      maybe_render_parents_spec e.parents f.rendered_entries
    refine ⟨?_, ?_, ?_⟩
    · intro i
      simp only [DefaultEventFormatter.maybe_render_test_file_into, if_neg hin,
        List.mem_cons, List.mem_append, List.mem_singleton]
      rw [hmem i]
      tauto
    · simp only [DefaultEventFormatter.maybe_render_test_file_into, if_neg hin]
      rw [List.nodup_append]
      refine ⟨hnd, List.nodup_singleton _, ?_⟩
      intro i hi hi'
      simp only [List.mem_singleton] at hi'
      subst hi'
      exact he (hcalls _ hi).2
    · intro i hi
      simp only [DefaultEventFormatter.maybe_render_test_file_into, if_neg hin,
        List.mem_append, List.mem_singleton] at hi
      rcases hi with hi | rfl
      · exact (hcalls i hi).1
      · exact hin

/-- Across a sequence of events, the concatenated trace of `render_into` calls
contains no duplicate, and only entries absent from the initial rendered
set — provided no entry is among its own ancestors. -/
theorem runRenders_spec (entries : List FileSystemEntry) :
    ∀ f : DefaultEventFormatter,
      (∀ e ∈ entries, e.eid ∉ e.parents) →
      (runRenders f entries).2.Nodup
      ∧ (∀ i ∈ (runRenders f entries).2, i ∉ f.rendered_entries) := by
  induction entries with
  | nil =>
    intro f _
    simp [runRenders]
  | cons e rest ih =>
    intro f h
    have he : e.eid ∉ e.parents := h e (List.mem_cons_self e rest)
    have hrest : ∀ e' ∈ rest, e'.eid ∉ e'.parents :=
      fun e' h' => h e' (List.mem_cons_of_mem e h')
    obtain ⟨hmem, hnd, hcalls⟩ := maybe_render_test_file_into_spec f e he
    obtain ⟨hnd', hcalls'⟩ := ih (f.maybe_render_test_file_into e).1 hrest
    constructor
    · simp only [runRenders]
      rw [List.nodup_append]
      refine ⟨hnd, hnd', ?_⟩
      intro i hi hi'
      exact hcalls' i hi' ((hmem i).mpr (Or.inr hi))
    · intro i hi
      simp only [runRenders, List.mem_append] at hi
      rcases hi with hi | hi
      · exact hcalls i hi
      · intro hf
        exact hcalls' i hi ((hmem i).mpr (Or.inl hf))

/-- C9: starting from a fresh formatter, across any sequence of events funnelled
through `_maybe_render_test_file_into`, each discovery tree node's
`render_into` hook is called at most once — provided no entry is among its own
ancestors (`iter_parents` yields proper ancestors). -/
theorem render_into_at_most_once (entries : List FileSystemEntry)
    (h : ∀ e ∈ entries, e.eid ∉ e.parents) (i : Nat) :
    (runRenders DefaultEventFormatter.new entries).2.count i ≤ 1 :=
  List.nodup_iff_count_le_one.mp (runRenders_spec entries DefaultEventFormatter.new h).1 i

/-- Witness for `render_into_at_most_once`: three events over two entries that
share a parent, the first entry occurring twice; the shared parent `0` is
rendered at most once. -/
theorem render_into_at_most_once_witness :
    (∀ e ∈ ([⟨1, [0]⟩, ⟨2, [0]⟩, ⟨1, [0]⟩] : List FileSystemEntry),
        e.eid ∉ e.parents)
    ∧ (runRenders DefaultEventFormatter.new
        [⟨1, [0]⟩, ⟨2, [0]⟩, ⟨1, [0]⟩]).2.count 0 ≤ 1 :=
  ⟨by decide, render_into_at_most_once _ (by decide) 0⟩

end Vampytest
